import Mathlib

/-!
Verification of the flash_map partitioned-flash abstraction layer
(subsys/storage/flash_map/flash_map.c).

The C code is shallowly embedded: machine integers become `Int`/`Nat`
(off_t values are signed, size_t values are non-negative), pointers to
devices become `Option Nat` (with `none` for NULL), the caller's output
pointer `*fap` becomes explicit value passing, and every call into the
backing flash driver is recorded in a `DevCall` trace.  The backing
device driver is external to this layer and is modelled as an
environment of uninterpreted total functions (`DeviceEnv`).

Error codes follow errno.h: ENOENT 2, EACCES 13, ENODEV 19, EINVAL 22,
returned negated.  The spec's taxonomy maps NotFound to -ENOENT,
NotReady to -ENODEV and OutOfBounds to -EINVAL.
-/

namespace FlashMap

/-- errno value for "Invalid argument". -/
def EINVAL : Int := 22

/-- errno value for "No such file or directory". -/
def ENOENT : Int := 2

/-- errno value for "Permission denied". -/
def EACCES : Int := 13

/-- errno value for "No such device". -/
def ENODEV : Int := 19

/-- One area descriptor, mirroring `struct flash_area`: build-time id,
backing device pointer (`none` is NULL), start offset within the device
(off_t, signed) and partition size in bytes (size_t). -/
structure FlashArea where
  fa_id : Nat
  fa_dev : Option Nat
  fa_off : Int
  fa_size : Nat
deriving Repr, DecidableEq

/-- Mirror of `struct flash_parameters` as far as this layer reads it:
the write-block size and the erase-value byte of a device. -/
structure FlashParameters where
  write_block_size : Nat
  erase_value : Nat
deriving Repr, DecidableEq

/-- The external backing-device driver interface, out of scope of this
layer: readiness predicate, raw read/write/erase at an absolute device
offset (each with the device pointer, the absolute offset, for
read/write an opaque buffer reference, and the length, returning a
driver return code), the write-block size query and the flash
parameters query.  All functions are total and uninterpreted: the layer
forwards to them and must not depend on their meaning. -/
structure DeviceEnv where
  device_is_ready : Option Nat → Bool
  flash_read : Option Nat → Int → Nat → Nat → Int
  flash_write : Option Nat → Int → Nat → Nat → Int
  flash_erase : Option Nat → Int → Nat → Int
  flash_get_write_block_size : Option Nat → Nat
  flash_get_parameters : Option Nat → FlashParameters

/-- One recorded call into the backing device: which raw primitive was
invoked, on which device, at which absolute offset, with which buffer
and length. -/
inductive DevCall where
  | read (dev : Option Nat) (absOff : Int) (buf : Nat) (len : Nat)
  | write (dev : Option Nat) (absOff : Int) (buf : Nat) (len : Nat)
  | erase (dev : Option Nat) (absOff : Int) (len : Nat)
deriving Repr, DecidableEq

/-- Modelled from the spec: `is_in_flash_area_bounds` is declared in
flash_map_priv.h, which is not among the provided sources.  The spec's
bounds-check algorithm: an access is valid iff
`rel_offset >= 0 AND rel_offset + length <= descriptor.size`, with no
overflow in the addition (here the addition is over `Int`, which cannot
overflow). -/
def is_in_flash_area_bounds (fa : FlashArea) (off : Int) (len : Nat) : Bool :=
  decide (0 ≤ off) && decide (off + (len : Int) ≤ (fa.fa_size : Int))

/-- Modelled from the spec: `get_flash_area_from_id` is declared in
flash_map_priv.h, which is not among the provided sources.  The spec's
`lookup(id)`: a linear search over the static table returning the
descriptor whose id matches, or NotFound (here `none`). -/
def get_flash_area_from_id (tbl : List FlashArea) (id : Nat) : Option FlashArea :=
  tbl.find? (fun a => a.fa_id == id)

/-- `flash_area_open` from flash_map.c.  `flash_map` is the global table
pointer (`none` is NULL), `fap` is the prior contents of the caller's
output variable `*fap`; the result is the return code paired with the
contents of `*fap` after the call.  NULL table gives -EACCES, a missing
id gives -ENOENT, a NULL or not-ready device gives -ENODEV; only on
success is `*fap` assigned. -/
def flash_area_open (env : DeviceEnv) (flash_map : Option (List FlashArea)) (id : Nat)
    (fap : Option FlashArea) : Int × Option FlashArea :=
  match flash_map with
  | none => (-EACCES, fap)
  | some tbl =>
    match get_flash_area_from_id tbl id with
    | none => (-ENOENT, fap)
    | some area =>
      if area.fa_dev = none ∨ env.device_is_ready area.fa_dev = false then
        (-ENODEV, fap)
      else
        (0, some area)

/-- `flash_area_close` from flash_map.c: the body is empty
("nothing to do for now"). -/
def flash_area_close (_fa : FlashArea) : Unit := ()

/-- `flash_area_read` from flash_map.c: bounds-check, then forward to
`flash_read(fa->fa_dev, fa->fa_off + off, dst, len)`.  Returns the
return code paired with the trace of device calls made. -/
def flash_area_read (env : DeviceEnv) (fa : FlashArea) (off : Int) (dst : Nat)
    (len : Nat) : Int × List DevCall :=
  if !is_in_flash_area_bounds fa off len then
    (-EINVAL, [])
  else
    (env.flash_read fa.fa_dev (fa.fa_off + off) dst len,
     [DevCall.read fa.fa_dev (fa.fa_off + off) dst len])

/-- `flash_area_write` from flash_map.c: bounds-check, then forward to
`flash_write(fa->fa_dev, fa->fa_off + off, src, len)` and return its
code `rc` unchanged (the code only logs when `rc != 0`). -/
def flash_area_write (env : DeviceEnv) (fa : FlashArea) (off : Int) (src : Nat)
    (len : Nat) : Int × List DevCall :=
  if !is_in_flash_area_bounds fa off len then
    (-EINVAL, [])
  else
    let rc := env.flash_write fa.fa_dev (fa.fa_off + off) src len
    (rc, [DevCall.write fa.fa_dev (fa.fa_off + off) src len])

/-- `flash_area_erase` from flash_map.c: bounds-check, then forward to
`flash_erase(fa->fa_dev, fa->fa_off + off, len)`. -/
def flash_area_erase (env : DeviceEnv) (fa : FlashArea) (off : Int)
    (len : Nat) : Int × List DevCall :=
  if !is_in_flash_area_bounds fa off len then
    (-EINVAL, [])
  else
    (env.flash_erase fa.fa_dev (fa.fa_off + off) len,
     [DevCall.erase fa.fa_dev (fa.fa_off + off) len])

/-- `flash_area_align` from flash_map.c: returns
`flash_get_write_block_size(fa->fa_dev)`. -/
def flash_area_align (env : DeviceEnv) (fa : FlashArea) : Nat :=
  env.flash_get_write_block_size fa.fa_dev

/-- `flash_area_has_driver` from flash_map.c: -ENODEV when
`device_is_ready(fa->fa_dev)` is false, else 1. -/
def flash_area_has_driver (env : DeviceEnv) (fa : FlashArea) : Int :=
  if env.device_is_ready fa.fa_dev = false then -ENODEV else 1

/-- `flash_area_get_device` from flash_map.c: returns `fa->fa_dev`. -/
def flash_area_get_device (fa : FlashArea) : Option Nat :=
  fa.fa_dev

/-- `flash_area_erased_val` from flash_map.c: reads
`flash_get_parameters(fa->fa_dev)->erase_value`. -/
def flash_area_erased_val (env : DeviceEnv) (fa : FlashArea) : Nat :=
  (env.flash_get_parameters fa.fa_dev).erase_value

/-- The loop body of `flash_area_foreach`: for `i` from the given index
up to `flash_map_entries` (the table length), invoke the callback on
`&flash_map[i]` and the running user data. -/
def foreachFrom {σ : Type} (tbl : List FlashArea) (user_cb : FlashArea → σ → σ)
    (user_data : σ) (i : Nat) : σ :=
  if h : i < tbl.length then
    foreachFrom tbl user_cb (user_cb (tbl.get ⟨i, h⟩) user_data) (i + 1)
  else
    user_data
termination_by tbl.length - i

/-- `flash_area_foreach` from flash_map.c: the for-loop over the table
starting at index 0.  The C callback mutates through its `user_data`
pointer; here that is state-passing through `σ`. -/
def flash_area_foreach {σ : Type} (tbl : List FlashArea) (user_cb : FlashArea → σ → σ)
    (user_data : σ) : σ :=
  foreachFrom tbl user_cb user_data 0

/-- The mutable state this layer can reach: the global table pointer
(`none` is NULL).  flash_map.c contains no store to the table, to its
length, or to any descriptor field; the step function below reflects
that by threading the state through every operation. -/
structure MapState where
  flash_map : Option (List FlashArea)
deriving Repr, DecidableEq

/-- One invocation of an operation of the layer, with its arguments. -/
inductive Op where
  | oOpen (id : Nat) (fap : Option FlashArea)
  | oClose (fa : FlashArea)
  | oRead (fa : FlashArea) (off : Int) (buf : Nat) (len : Nat)
  | oWrite (fa : FlashArea) (off : Int) (buf : Nat) (len : Nat)
  | oErase (fa : FlashArea) (off : Int) (len : Nat)
  | oAlign (fa : FlashArea)
  | oErasedVal (fa : FlashArea)
  | oHasDriver (fa : FlashArea)
  | oGetDevice (fa : FlashArea)
  | oForeach
deriving Repr, DecidableEq

/-- The visible result of one operation. -/
inductive OpResult where
  | rcFap (rc : Int) (fap : Option FlashArea)
  | rc (v : Int)
  | num (v : Nat)
  | dev (d : Option Nat)
  | visited (l : List FlashArea)
  | unit
deriving Repr, DecidableEq

/-- Run one operation of the layer against the current state: result,
trace of backing-device I/O calls, and the state afterwards.  The
foreach case is instantiated with the listing callback (append the
visited descriptor), the use the spec names for discovery/listing. -/
def step (env : DeviceEnv) (s : MapState) (op : Op) : OpResult × List DevCall × MapState :=
  match op with
  | .oOpen id fap =>
      let r := flash_area_open env s.flash_map id fap
      (.rcFap r.1 r.2, [], s)
  | .oClose fa =>
      let _ := flash_area_close fa
      (.unit, [], s)
  | .oRead fa off buf len =>
      let r := flash_area_read env fa off buf len
      (.rc r.1, r.2, s)
  | .oWrite fa off buf len =>
      let r := flash_area_write env fa off buf len
      (.rc r.1, r.2, s)
  | .oErase fa off len =>
      let r := flash_area_erase env fa off len
      (.rc r.1, r.2, s)
  | .oAlign fa => (.num (flash_area_align env fa), [], s)
  | .oErasedVal fa => (.num (flash_area_erased_val env fa), [], s)
  | .oHasDriver fa => (.rc (flash_area_has_driver env fa), [], s)
  | .oGetDevice fa => (.dev (flash_area_get_device fa), [], s)
  | .oForeach =>
      (.visited (flash_area_foreach (s.flash_map.getD []) (fun a l => l ++ [a]) []), [], s)

/-- Replace the readiness predicate of a device environment, leaving
every other driver entry point untouched; models the backing device
changing readiness state after a handle was obtained. -/
def setReady (env : DeviceEnv) (r : Option Nat → Bool) : DeviceEnv :=
  ⟨r, env.flash_read, env.flash_write, env.flash_erase,
   env.flash_get_write_block_size, env.flash_get_parameters⟩

/-- A concrete driver environment for evaluating the operations on
concrete inputs: every device ready, every raw operation succeeding. -/
def testEnv : DeviceEnv :=
  ⟨fun _ => true, fun _ _ _ _ => 0, fun _ _ _ _ => 0, fun _ _ _ => 0,
   fun _ => 4, fun _ => ⟨4, 255⟩⟩

/-- The spec's example area: id 1, offset 0x10000, size 0x1000, on
device 7. -/
def testArea : FlashArea :=
  ⟨1, some 7, 65536, 4096⟩

/-- A second area on the same device with different offset and size. -/
def testArea2 : FlashArea :=
  ⟨2, some 7, 69632, 8192⟩

/-- The indexed loop of foreach, run from index `i`, folds the callback
over the suffix of the table from `i`. -/
theorem foreachFrom_eq_foldl {σ : Type} (user_cb : FlashArea → σ → σ) :
    ∀ (n : Nat) (tbl : List FlashArea) (i : Nat) (s : σ), tbl.length - i ≤ n →
      foreachFrom tbl user_cb s i = (tbl.drop i).foldl (fun s a => user_cb a s) s := by
  intro n
  induction n with
  | zero =>
    intro tbl i s h
    have hi : tbl.length ≤ i := by omega
    rw [foreachFrom]
    simp [Nat.not_lt.mpr hi, List.drop_eq_nil_of_le hi]
  | succ n ih =>
    intro tbl i s h
    rw [foreachFrom]
    by_cases hi : i < tbl.length
    · simp only [hi, dif_pos]
      rw [ih tbl (i + 1) _ (by omega), List.drop_eq_getElem_cons hi]
      simp only [List.get_eq_getElem, List.foldl_cons]
    · simp [hi, List.drop_eq_nil_of_le (Nat.not_lt.mp hi)]

/-- foreach is the left fold of the callback over the whole table. -/
theorem flash_area_foreach_eq_foldl {σ : Type} (tbl : List FlashArea)
    (user_cb : FlashArea → σ → σ) (s : σ) :
    flash_area_foreach tbl user_cb s = tbl.foldl (fun s a => user_cb a s) s := by
  rw [flash_area_foreach, foreachFrom_eq_foldl user_cb tbl.length tbl 0 s (by omega)]
  simp

/-- Folding the append-singleton callback lists the table after the seed. -/
theorem foldl_append_singleton (tbl : List FlashArea) :
    ∀ acc : List FlashArea, tbl.foldl (fun l a => l ++ [a]) acc = acc ++ tbl := by
  induction tbl with
  | nil => intro acc; simp
  | cons a t ih => intro acc; simp [List.foldl_cons, ih]

/-- foreach with the listing callback visits exactly the descriptors of
the table, first to last. -/
theorem foreach_visits (tbl : List FlashArea) :
    flash_area_foreach tbl (fun a l => l ++ [a]) [] = tbl := by
  rw [flash_area_foreach_eq_foldl, foldl_append_singleton]
  simp

/-- No operation of the layer changes the state: flash_map.c contains no
store to the table pointer, the entry count, or any descriptor field. -/
theorem step_preserves_state (env : DeviceEnv) (s : MapState) (op : Op) :
    (step env s op).2.2 = s := by
  cases op <;> rfl

/-- C1: for every handle and every (rel_offset, length) pair, each of
read, write and erase is permitted (makes a device call) iff
rel_offset ≥ 0 and rel_offset + length ≤ descriptor.size, the addition
computed without overflow; on any violation the operation returns
-EINVAL (the OutOfBounds error) and no call to the backing device is
made, the very same check guarding all three operations. -/
theorem C1_bounds_check_identical (env : DeviceEnv) (fa : FlashArea) (off : Int)
    (buf len : Nat) :
    (is_in_flash_area_bounds fa off len = true ↔
      (0 ≤ off ∧ off + (len : Int) ≤ (fa.fa_size : Int)))
    ∧ (¬(0 ≤ off ∧ off + (len : Int) ≤ (fa.fa_size : Int)) →
        flash_area_read env fa off buf len = (-EINVAL, [])
        ∧ flash_area_write env fa off buf len = (-EINVAL, [])
        ∧ flash_area_erase env fa off len = (-EINVAL, []))
    ∧ ((0 ≤ off ∧ off + (len : Int) ≤ (fa.fa_size : Int)) →
        (flash_area_read env fa off buf len).2 ≠ []
        ∧ (flash_area_write env fa off buf len).2 ≠ []
        ∧ (flash_area_erase env fa off len).2 ≠ []) := by
  have hb : is_in_flash_area_bounds fa off len = true ↔
      (0 ≤ off ∧ off + (len : Int) ≤ (fa.fa_size : Int)) := by
    simp [is_in_flash_area_bounds]
  refine ⟨hb, ?_, ?_⟩
  · intro h
    have hf : is_in_flash_area_bounds fa off len = false := by
      rcases Bool.eq_false_or_eq_true (is_in_flash_area_bounds fa off len) with h1 | h1
      · exact absurd (hb.mp h1) h
      · exact h1
    refine ⟨?_, ?_, ?_⟩ <;>
      simp [flash_area_read, flash_area_write, flash_area_erase, hf]
  · intro h
    have ht := hb.mpr h
    refine ⟨?_, ?_, ?_⟩ <;>
      simp [flash_area_read, flash_area_write, flash_area_erase, ht]

/-- Witness for C1: at rel_offset -1 all three operations reject with
-EINVAL and an empty device-call trace. -/
theorem C1_bounds_check_identical_witness :
    flash_area_read testEnv testArea (-1) 0 1 = (-EINVAL, [])
    ∧ flash_area_write testEnv testArea (-1) 0 1 = (-EINVAL, [])
    ∧ flash_area_erase testEnv testArea (-1) 1 = (-EINVAL, []) :=
  (C1_bounds_check_identical testEnv testArea (-1) 0 1).2.1 (by decide)

/-- C2: with the table initialized, open on an absent id returns
-ENOENT (NotFound), open on a present id whose device is NULL or not
ready returns -ENODEV (NotReady), and on success it returns 0 with the
caller's handle bound to the resolved descriptor; open performs no
device I/O and leaves the state unchanged. -/
theorem C2_open_results (env : DeviceEnv) (tbl : List FlashArea) (id : Nat)
    (fap : Option FlashArea) :
    (get_flash_area_from_id tbl id = none →
      flash_area_open env (some tbl) id fap = (-ENOENT, fap))
    ∧ (∀ area, get_flash_area_from_id tbl id = some area →
        (area.fa_dev = none ∨ env.device_is_ready area.fa_dev = false) →
        flash_area_open env (some tbl) id fap = (-ENODEV, fap))
    ∧ (∀ area, get_flash_area_from_id tbl id = some area →
        area.fa_dev ≠ none → env.device_is_ready area.fa_dev = true →
        flash_area_open env (some tbl) id fap = (0, some area))
    ∧ (step env ⟨some tbl⟩ (Op.oOpen id fap)).2.1 = []
    ∧ (step env ⟨some tbl⟩ (Op.oOpen id fap)).2.2 = ⟨some tbl⟩ := by
  refine ⟨?_, ?_, ?_, rfl, rfl⟩
  · intro h
    simp [flash_area_open, h]
  · intro area harea hc
    simp [flash_area_open, harea, hc]
  · intro area harea hdev hready
    have hc : ¬(area.fa_dev = none ∨ env.device_is_ready area.fa_dev = false) := by
      simp [hdev, hready]
    simp [flash_area_open, harea, hc]

/-- Witness for C2: on the one-entry table, id 99 is NotFound and id 1
opens successfully, binding the handle to the descriptor. -/
theorem C2_open_results_witness :
    flash_area_open testEnv (some [testArea]) 99 none = (-ENOENT, none)
    ∧ flash_area_open testEnv (some [testArea]) 1 none = (0, some testArea) :=
  ⟨(C2_open_results testEnv [testArea] 99 none).1 (by decide),
   (C2_open_results testEnv [testArea] 1 none).2.2.1 testArea (by decide) (by decide) rfl⟩

/-- C3: for every in-bounds (rel_offset, length), read, write and erase
forward exactly one call to the backing device at absolute offset
descriptor.offset + rel_offset with the caller's buffer and length, and
return the device's result verbatim. -/
theorem C3_forwarding (env : DeviceEnv) (fa : FlashArea) (off : Int) (buf len : Nat)
    (h1 : 0 ≤ off) (h2 : off + (len : Int) ≤ (fa.fa_size : Int)) :
    flash_area_read env fa off buf len
      = (env.flash_read fa.fa_dev (fa.fa_off + off) buf len,
         [DevCall.read fa.fa_dev (fa.fa_off + off) buf len])
    ∧ flash_area_write env fa off buf len
      = (env.flash_write fa.fa_dev (fa.fa_off + off) buf len,
         [DevCall.write fa.fa_dev (fa.fa_off + off) buf len])
    ∧ flash_area_erase env fa off len
      = (env.flash_erase fa.fa_dev (fa.fa_off + off) len,
         [DevCall.erase fa.fa_dev (fa.fa_off + off) len]) := by
  have ht : is_in_flash_area_bounds fa off len = true := by
    simp [is_in_flash_area_bounds]
    exact ⟨h1, h2⟩
  refine ⟨?_, ?_, ?_⟩ <;>
    simp [flash_area_read, flash_area_write, flash_area_erase, ht]

/-- Witness for C3: the spec scenario, reading 2 bytes at rel_offset
0x0FFE of the area at 0x10000 reaches the device at 0x10FFE. -/
theorem C3_forwarding_witness :
    flash_area_read testEnv testArea 4094 0 2 = (0, [DevCall.read (some 7) 69630 0 2]) := by
  have h := (C3_forwarding testEnv testArea 4094 0 2 (by decide) (by decide)).1
  simpa [testEnv, testArea] using h

/-- C4: foreach invokes the callback once per descriptor in table order
(with the listing callback the visit list is the table itself), it is
the synchronous left fold of the callback over the table, and its
behaviour is unchanged by a preceding open or close on any area. -/
theorem C4_foreach_order (tbl : List FlashArea) (env : DeviceEnv) (s : MapState)
    (id : Nat) (fap : Option FlashArea) (fa : FlashArea) :
    flash_area_foreach tbl (fun a l => l ++ [a]) [] = tbl
    ∧ (∀ {σ : Type} (user_cb : FlashArea → σ → σ) (d : σ),
        flash_area_foreach tbl user_cb d = tbl.foldl (fun s a => user_cb a s) d)
    ∧ step env ((step env s (Op.oOpen id fap)).2.2) Op.oForeach = step env s Op.oForeach
    ∧ step env ((step env s (Op.oClose fa)).2.2) Op.oForeach = step env s Op.oForeach := by
  refine ⟨foreach_visits tbl, ?_, ?_, ?_⟩
  · intro σ user_cb d
    exact flash_area_foreach_eq_foldl tbl user_cb d
  · rw [step_preserves_state]
  · rw [step_preserves_state]

/-- C5: every operation of the layer leaves the area table, and hence
every descriptor in it, unchanged: the step of any operation returns
the state it was given. -/
theorem C5_state_immutable (env : DeviceEnv) (s : MapState) (op : Op) :
    (step env s op).2.2 = s :=
  step_preserves_state env s op

/-- C6: align returns the device's write-block size, erased_val the
device's erase-value byte, and two handles on the same backing device
get equal results regardless of their offset and size. -/
theorem C6_align_erased_device_only (env : DeviceEnv) (fa1 fa2 : FlashArea)
    (h : fa1.fa_dev = fa2.fa_dev) :
    flash_area_align env fa1 = env.flash_get_write_block_size fa1.fa_dev
    ∧ flash_area_erased_val env fa1 = (env.flash_get_parameters fa1.fa_dev).erase_value
    ∧ flash_area_align env fa1 = flash_area_align env fa2
    ∧ flash_area_erased_val env fa1 = flash_area_erased_val env fa2 := by
  refine ⟨rfl, rfl, ?_, ?_⟩ <;> simp [flash_area_align, flash_area_erased_val, h]

/-- Witness for C6: the two test areas share device 7 and agree on
align and erased_val despite different offsets and sizes. -/
theorem C6_align_erased_device_only_witness :
    flash_area_align testEnv testArea = flash_area_align testEnv testArea2
    ∧ flash_area_erased_val testEnv testArea = flash_area_erased_val testEnv testArea2 :=
  ⟨(C6_align_erased_device_only testEnv testArea testArea2 rfl).2.2.1,
   (C6_align_erased_device_only testEnv testArea testArea2 rfl).2.2.2⟩

/-- C7: has_driver returns -ENODEV (NotReady) iff the device is not
ready at the time of the call and returns 1 (usable) otherwise; it
consults only the current readiness predicate, so it is independent of
the check open performed; and read, write and erase do not consult the
readiness predicate at all, so a handle stays usable across readiness
changes. -/
theorem C7_has_driver_liveness (env : DeviceEnv) (fa : FlashArea) (off : Int)
    (buf len : Nat) (r : Option Nat → Bool) :
    (flash_area_has_driver env fa = -ENODEV ↔ env.device_is_ready fa.fa_dev = false)
    ∧ (env.device_is_ready fa.fa_dev = true → flash_area_has_driver env fa = 1)
    ∧ flash_area_has_driver (setReady env r) fa
        = (if r fa.fa_dev = false then -ENODEV else 1)
    ∧ flash_area_read (setReady env r) fa off buf len = flash_area_read env fa off buf len
    ∧ flash_area_write (setReady env r) fa off buf len = flash_area_write env fa off buf len
    ∧ flash_area_erase (setReady env r) fa off len = flash_area_erase env fa off len := by
  refine ⟨?_, ?_, rfl, rfl, rfl, rfl⟩
  · by_cases hr : env.device_is_ready fa.fa_dev = false
    · simp [flash_area_has_driver, hr]
    · rw [flash_area_has_driver, if_neg hr]
      simp [hr, ENODEV]
  · intro h
    simp [flash_area_has_driver, h]

/-- Witness for C7: with the always-ready driver, has_driver reports
the handle usable. -/
theorem C7_has_driver_liveness_witness :
    flash_area_has_driver testEnv testArea = 1 :=
  (C7_has_driver_liveness testEnv testArea 0 0 0 (fun _ => false)).2.1 rfl

/-- C8: close is a no-op: its body returns nothing, the step of a close
changes no state and makes no device call, and every operation behaves
identically before and after a close. -/
theorem C8_close_noop (env : DeviceEnv) (s : MapState) (fa : FlashArea) (op : Op) :
    flash_area_close fa = ()
    ∧ step env s (Op.oClose fa) = (OpResult.unit, [], s)
    ∧ step env ((step env s (Op.oClose fa)).2.2) op = step env s op := by
  refine ⟨rfl, rfl, ?_⟩
  rw [step_preserves_state]

/-- C9: whenever open returns a nonzero code the caller's output
variable keeps its prior contents; only on the success path is it
assigned, and then it holds the descriptor the table resolved for the
id. -/
theorem C9_open_output_atomic (env : DeviceEnv) (fm : Option (List FlashArea))
    (id : Nat) (fap : Option FlashArea) :
    ((flash_area_open env fm id fap).1 ≠ 0 → (flash_area_open env fm id fap).2 = fap)
    ∧ ((flash_area_open env fm id fap).1 = 0 →
        ∃ tbl area, fm = some tbl ∧ get_flash_area_from_id tbl id = some area
          ∧ (flash_area_open env fm id fap).2 = some area) := by
  constructor
  · intro h
    cases fm with
    | none => rfl
    | some tbl =>
      cases harea : get_flash_area_from_id tbl id with
      | none => simp [flash_area_open, harea]
      | some area =>
        by_cases hc : area.fa_dev = none ∨ env.device_is_ready area.fa_dev = false
        · simp [flash_area_open, harea, hc]
        · exact absurd (by simp [flash_area_open, harea, hc]) h
  · intro h
    cases fm with
    | none => simp [flash_area_open, EACCES] at h
    | some tbl =>
      cases harea : get_flash_area_from_id tbl id with
      | none => simp [flash_area_open, harea, ENOENT] at h
      | some area =>
        by_cases hc : area.fa_dev = none ∨ env.device_is_ready area.fa_dev = false
        · simp [flash_area_open, harea, hc, ENODEV] at h
        · exact ⟨tbl, area, rfl, harea, by simp [flash_area_open, harea, hc]⟩

/-- Witness for C9: a failing open (absent id) leaves the output
variable holding what it held before. -/
theorem C9_open_output_atomic_witness :
    (flash_area_open testEnv (some [testArea]) 99 (some testArea2)).2 = some testArea2 :=
  (C9_open_output_atomic testEnv (some [testArea]) 99 (some testArea2)).1 (by decide)

/-- C10: with a NULL table pointer, open returns -EACCES with the
output variable untouched, identically for every id and every driver
environment, so neither a table lookup nor a readiness check can have
influenced the outcome. -/
theorem C10_null_table_eacces (env env2 : DeviceEnv) (id id2 : Nat)
    (fap : Option FlashArea) :
    flash_area_open env none id fap = (-EACCES, fap)
    ∧ flash_area_open env none id fap = flash_area_open env2 none id2 fap :=
  ⟨rfl, rfl⟩

end FlashMap
